import Mathlib

/-!
Shallow embedding of CCDLibrary.cpp (CCD-bus protocol driver) and proofs
about its message assembly, read/write API, checksum handling and receive
buffer management.

Bytes are modelled as `Nat`; `uint8_t` arithmetic carries an explicit
`% 256`.  The 16-byte C arrays are modelled as functions `Nat → Nat`
updated with `Function.update`; the code itself guards every store with an
explicit bounds check, so no array-capacity encoding is needed beyond what
the source states.  Interrupt-driven hardware inputs (the UART data and
status registers, the sampled RX line during bit-banged arbitration, and
whether the bus went idle during `write`'s one-second poll) enter the
model as explicit parameters of the corresponding handler functions.
-/

namespace CCDLib

/-- The mutable member state of the `CCDLibrary` class: configuration set by
`begin`, the single-slot message mailbox, the receive and transmit staging
buffers with their cursors, the diagnostic error field, the bus-idle flag,
and the UDRIE (transmit-data-ready interrupt enable) bit of `UCSR1B`. -/
structure State where
  interruptsAvailable : Bool
  verifyRxChecksum : Bool
  calculateTxChecksum : Bool
  message : Nat → Nat
  messageLength : Nat
  lastMessageRead : Bool
  serialRxBuffer : Nat → Nat
  serialRxBufferPos : Nat
  serialTxBuffer : Nat → Nat
  serialTxBufferPos : Nat
  serialTxLength : Nat
  lastSerialError : Nat
  busIdle : Bool
  udrie : Bool

/-- The copy loops of the source (`for (i = 0; i < n; i++) dst[i] = src[i]`). -/
def copyBytes (n : Nat) (src dst : Nat → Nat) : Nat → Nat :=
  (List.range n).foldl (fun d i => Function.update d i (src i)) dst

/-- The checksum accumulation loop of the source
(`for (i = 0; i < n; i++) checksum += buf[i]` on `uint8_t`). -/
def checksumOf (buf : Nat → Nat) (n : Nat) : Nat :=
  (List.range n).foldl (fun c i => (c + buf i) % 256) 0

/-- `CCDLibrary::available` (line 108). -/
def available (s : State) : Bool :=
  !s.lastMessageRead

/-- `CCDLibrary::read` (lines 113-120): copies `_messageLength` bytes of
`_message` into the caller's target buffer, sets `_lastMessageRead`, and
returns `_messageLength`.  The result is the new state, the target buffer
after the copy, and the returned length. -/
def read (s : State) (target : Nat → Nat) : State × (Nat → Nat) × Nat :=
  ({ s with lastMessageRead := true },
   copyBytes s.messageLength s.message target,
   s.messageLength)

/-- `CCDLibrary::processMessage` (lines 280-315). -/
def processMessage (s : State) : State :=
  if 0 < s.serialRxBufferPos then
    if s.verifyRxChecksum = true ∧ 1 < s.serialRxBufferPos then
      if checksumOf s.serialRxBuffer (s.serialRxBufferPos - 1)
          = s.serialRxBuffer (s.serialRxBufferPos - 1) then
        { s with
          message := copyBytes s.serialRxBufferPos s.serialRxBuffer s.message
          messageLength := s.serialRxBufferPos
          serialRxBufferPos := 0
          lastMessageRead := false }
      else
        { s with
          messageLength := 0
          serialRxBufferPos := 0
          lastMessageRead := false }
    else
      { s with
        message := copyBytes s.serialRxBufferPos s.serialRxBuffer s.message
        messageLength := s.serialRxBufferPos
        serialRxBufferPos := 0
        lastMessageRead := false }
  else s

/-- `CCDLibrary::handle_TIMER3_COMPA_vect` (lines 322-327): the bus-idle
timer expired; stop the timer (pure hardware effect, no member state), set
the bus-idle flag and run the message assembler. -/
def handle_TIMER3_COMPA_vect (s : State) : State :=
  processMessage { s with busIdle := true }

/-- `CCDLibrary::busIdleInterruptHandler` (lines 443-447): hardware-signaled
idle edge; set the bus-idle flag and run the message assembler. -/
def busIdleInterruptHandler (s : State) : State :=
  processMessage { s with busIdle := true }

/-- Bit position of the framing-error flag `FE1` in `UCSR1A`. -/
def FE1 : Nat := 4

/-- Bit position of the data-overrun flag `DOR1` in `UCSR1A`. -/
def DOR1 : Nat := 3

/-- Modelled from the spec: `UART_BUFFER_OVERFLOW` is the local
buffer-overflow condition flag, defined in `CCDLibrary.h` which is not part
of the given sources.  The spec only requires it to be a distinct recorded
condition in the last-serial-error bitfield; it is modelled as a bit
disjoint from the `FE1`/`DOR1` hardware error bits. -/
def UART_BUFFER_OVERFLOW : Nat := 2 ^ 6

/-- `CCDLibrary::handle_USART1_RX_vect` (lines 334-359): a byte arrived.
`usr` is the UART status register `UCSR1A` and `data` the data register
`UDR1` at the time of the interrupt.  Restarting the bus idle timer is a
pure hardware effect with no member state. -/
def handle_USART1_RX_vect (s : State) (usr data : Nat) : State :=
  let lastRxError := usr &&& (2 ^ FE1 ||| 2 ^ DOR1)
  if s.serialRxBufferPos < 16 then
    { s with
      busIdle := false
      serialRxBuffer := Function.update s.serialRxBuffer s.serialRxBufferPos data
      serialRxBufferPos := s.serialRxBufferPos + 1
      lastSerialError := lastRxError }
  else
    { s with
      busIdle := false
      lastSerialError := lastRxError ||| UART_BUFFER_OVERFLOW }

/-- A sequence of byte-received interrupts, each a pair of the status
register and data register values delivered to `handle_USART1_RX_vect`. -/
def rxEvents (s : State) (es : List (Nat × Nat)) : State :=
  es.foldl (fun t e => handle_USART1_RX_vect t e.1 e.2) s

/-- The transmit staging of `write` (lines 132-140): copy the caller's
bytes into the transmit buffer and, when checksum generation is enabled
and the length exceeds 1, overwrite the last byte with the mod-256 sum of
the preceding caller bytes. -/
def txStage (calcTx : Bool) (buffer : Nat → Nat) (n : Nat) (old : Nat → Nat) : Nat → Nat :=
  if calcTx = true ∧ 1 < n then
    Function.update (copyBytes n buffer old) (n - 1) (checksumOf buffer (n - 1))
  else
    copyBytes n buffer old

/-- The environment of one bit-banged arbitration attempt: the RX line
level sampled before the start bit, at the half start bit, at the half
mark of each of the 8 data bits, and at the half stop bit. -/
structure ArbEnv where
  rxIdle : Bool
  rxStart : Bool
  rxData : Nat → Bool
  rxStop : Bool

/-- The bit-banged first-byte arbitration of `write` (lines 195-232):
returns the error flag and the sampled ID byte `IDbyteRX`.  The fold state
is `(error, currentTxBit, IDbyteRX)`; per data bit the TX line is driven
only while no error has occurred, the RX sample always contributes its bit
to `IDbyteRX`, and a sample differing from the driven bit flags an error. -/
def arbitrate (env : ArbEnv) (idByteTX : Nat) : Bool × Nat :=
  let e0 := !env.rxIdle
  let e1 := if !e0 then env.rxStart else e0
  let st := (List.range 8).foldl
    (fun (st : Bool × Bool × Nat) i =>
      let currentTxBit := if !st.1 then idByteTX.testBit i else st.2.1
      let currentRxBit := env.rxData i
      let idByteRX := if currentRxBit then st.2.2 + 2 ^ i else st.2.2
      let er := if currentRxBit != currentTxBit then true else st.1
      (er, currentTxBit, idByteRX))
    (e1, false, 0)
  let e2 := if !env.rxStop then true else st.1
  (e2, st.2.2)

/-- `CCDLibrary::write` (lines 122-278).  `busWentIdle` tells whether the
bus-idle flag became true during the one-second poll (it is set
asynchronously by the idle interrupt or timer); `env` is the RX line
behaviour during the bit-banged arbitration in software mode.  The result
is the new state and the returned status code
(0 ok, 1 zero buffer length, 2 timeout, 3 data collision). -/
def write (s : State) (buffer : Nat → Nat) (bufferLength : Nat)
    (busWentIdle : Bool) (env : ArbEnv) : State × Nat :=
  if bufferLength = 0 then (s, 1)
  else
    let s1 : State :=
      { s with
        serialTxBuffer := txStage s.calculateTxChecksum buffer bufferLength s.serialTxBuffer
        serialTxBufferPos := 0
        serialTxLength := bufferLength }
    if s1.busIdle = false ∧ busWentIdle = false then (s1, 2)
    else
      let s2 : State := { s1 with busIdle := false }
      if s2.interruptsAvailable = true then
        ({ s2 with udrie := true }, 0)
      else
        let idByteTX := s2.serialTxBuffer 0
        let arb := arbitrate env idByteTX
        let s3 : State :=
          { s2 with
            udrie := false
            serialRxBuffer := Function.update s2.serialRxBuffer 0 arb.2
            serialRxBufferPos := 1 }
        if arb.1 = false ∧ arb.2 = idByteTX then
          ({ s3 with serialTxBufferPos := 1, udrie := true }, 0)
        else
          ({ s3 with serialTxBufferPos := 0, serialTxLength := 0 }, 3)

/-! ### Helper lemmas about the copy and staging loops -/

theorem copyBytes_succ (n : Nat) (src dst : Nat → Nat) :
    copyBytes (n + 1) src dst = Function.update (copyBytes n src dst) n (src n) := by
  unfold copyBytes
  rw [List.range_succ, List.foldl_append]
  rfl

theorem copyBytes_apply (n : Nat) (src dst : Nat → Nat) (j : Nat) :
    copyBytes n src dst j = if j < n then src j else dst j := by
  induction n with
  | zero => simp [copyBytes]
  | succ n ih =>
    rw [copyBytes_succ]
    rcases Nat.lt_trichotomy j n with h | h | h
    · rw [Function.update_noteq (by omega), ih, if_pos h, if_pos (by omega)]
    · subst h
      rw [Function.update_same, if_pos (by omega)]
    · rw [Function.update_noteq (by omega), ih, if_neg (by omega), if_neg (by omega)]

theorem txStage_zero (c : Bool) (buffer : Nat → Nat) (n : Nat) (old : Nat → Nat)
    (hn : 0 < n) :
    txStage c buffer n old 0 = buffer 0 := by
  unfold txStage
  split_ifs with h
  · rw [Function.update_noteq (by omega), copyBytes_apply, if_pos hn]
  · rw [copyBytes_apply, if_pos hn]

theorem txStage_last (buffer : Nat → Nat) (n : Nat) (old : Nat → Nat) (hn : 1 < n) :
    txStage true buffer n old (n - 1) = checksumOf buffer (n - 1) := by
  unfold txStage
  rw [if_pos ⟨rfl, hn⟩, Function.update_same]

/-! ### Concrete states and environments used by counterexamples and witnesses -/

/-- An arbitration environment in which the RX line stays at its idle
levels and never shows a foreign transmitter. -/
def quietEnv : ArbEnv :=
  { rxIdle := true, rxStart := false, rxData := fun _ => false, rxStop := true }

/-- A freshly initialised software-mode state (as after `begin` with
`NO_INTERRUPTS` and both checksum options disabled): empty buffers,
mailbox read, bus busy. -/
def busyState : State :=
  { interruptsAvailable := false
    verifyRxChecksum := false
    calculateTxChecksum := false
    message := fun _ => 0
    messageLength := 0
    lastMessageRead := true
    serialRxBuffer := fun _ => 0
    serialRxBufferPos := 0
    serialTxBuffer := fun _ => 0
    serialTxBufferPos := 0
    serialTxLength := 0
    lastSerialError := 0
    busIdle := false
    udrie := false }

/-- A two-byte frame to transmit. -/
def twoByteFrame : Nat → Nat :=
  fun j => if j = 0 then 16 else if j = 1 then 32 else 0

/-- A received two-byte staging buffer whose last byte 5 differs from the
checksum 1 of the preceding byte, with checksum verification enabled and
the mailbox in the already-read state. -/
def mismatchState : State :=
  { busyState with
    verifyRxChecksum := true
    serialRxBuffer := fun j => if j = 0 then 1 else if j = 1 then 5 else 0
    serialRxBufferPos := 2
    busIdle := true }

/-- A state holding an assembled two-byte message that has not been read. -/
def readyState : State :=
  { busyState with
    message := fun j => if j = 0 then 5 else if j = 1 then 7 else 0
    messageLength := 2
    lastMessageRead := false }

/-! ### Claims -/

/-- Claim C1 counterexample: on the concrete staging buffer `[1, 5]` with
checksum verification enabled the mod-256 sum of all bytes but the last
(namely 1) differs from the last byte (5), yet `processMessage` does not
leave the availability flag untouched: the flag was `read` (true) before
the call and is forced to not-read (false) by it, exposing a zero-length
message as available. -/
theorem C1_counterexample :
    checksumOf mismatchState.serialRxBuffer (mismatchState.serialRxBufferPos - 1)
      ≠ mismatchState.serialRxBuffer (mismatchState.serialRxBufferPos - 1) ∧
    mismatchState.lastMessageRead = true ∧
    (processMessage mismatchState).lastMessageRead = false := by
  decide

/-- Claim C1 (amended): with checksum verification enabled, a staging
cursor above 1 and a mod-256 sum of all bytes but the last differing from
the last byte, `processMessage` sets the assembled message length to 0 and
resets the staging cursor to 0, and it marks the mailbox as unread (the
availability flag is set, not left untouched): the application sees an
available zero-length message for the discarded frame. -/
theorem C1_checksum_mismatch (s : State)
    (hv : s.verifyRxChecksum = true)
    (hp : 1 < s.serialRxBufferPos)
    (hm : checksumOf s.serialRxBuffer (s.serialRxBufferPos - 1)
            ≠ s.serialRxBuffer (s.serialRxBufferPos - 1)) :
    (processMessage s).messageLength = 0 ∧
    (processMessage s).serialRxBufferPos = 0 ∧
    (processMessage s).lastMessageRead = false := by
  unfold processMessage
  rw [if_pos (by omega), if_pos ⟨hv, hp⟩, if_neg hm]
  exact ⟨rfl, rfl, rfl⟩

/-- Claim C1 witness: the amended theorem applied to the concrete
mismatching buffer `[1, 5]`. -/
theorem C1_checksum_mismatch_witness :
    (processMessage mismatchState).messageLength = 0 ∧
    (processMessage mismatchState).serialRxBufferPos = 0 ∧
    (processMessage mismatchState).lastMessageRead = false :=
  C1_checksum_mismatch mismatchState (by decide) (by decide) (by decide)

/-- Claim C2 counterexample: with an unread assembled message of length 2,
the first `read` returns length 2 and the second `read`, without any new
frame in between, returns length 2 again — not length 0 as claimed:
`read` clears the availability flag but returns `_messageLength`
unconditionally. -/
theorem C2_counterexample :
    (read readyState (fun _ => 0)).2.2 = 2 ∧
    available (read readyState (fun _ => 0)).1 = false ∧
    (read (read readyState (fun _ => 0)).1 (fun _ => 0)).2.2 ≠ 0 := by
  decide

/-- Claim C2 (amended): `read` copies the stored message bytes into the
target and returns the stored length, and it clears the availability flag;
but a second `read` without an intervening new frame returns the same
stored length (and bytes) again, not length 0 — the length is never
reset by reading, only the availability flag is. -/
theorem C2_read_twice (s : State) (target : Nat → Nat) :
    (read s target).2.2 = s.messageLength ∧
    (∀ i, i < s.messageLength → (read s target).2.1 i = s.message i) ∧
    (read s target).1.lastMessageRead = true ∧
    available (read s target).1 = false ∧
    (read (read s target).1 target).2.2 = s.messageLength := by
  refine ⟨rfl, ?_, rfl, rfl, rfl⟩
  intro i hi
  show copyBytes s.messageLength s.message target i = s.message i
  rw [copyBytes_apply, if_pos hi]

/-- Claim C3 counterexample: starting from a clean software-mode state
with the bus busy and never going idle, `write` of the two-byte frame
`[16, 32]` returns status 2 (Timeout) but does not leave the transmit
staging clean: the recorded transmit length is 2 (not 0) and the staged
first byte 16 remains in the transmit buffer. -/
theorem C3_counterexample :
    (write busyState twoByteFrame 2 false quietEnv).2 = 2 ∧
    (write busyState twoByteFrame 2 false quietEnv).1.serialTxLength = 2 ∧
    (write busyState twoByteFrame 2 false quietEnv).1.serialTxBuffer 0 = 16 := by
  decide

/-- Claim C3 (amended): when the bus is busy and never goes idle within
the one-second poll, `write` with nonzero length returns status 2
(Timeout), but the frame stays staged: the recorded transmit length
equals the requested length, the transmit position is 0 and the transmit
buffer holds the staged (possibly checksum-stamped) bytes.  No
transmission is started: the transmit-data-ready interrupt enable and the
bus-idle flag are unchanged. -/
theorem C3_write_timeout (s : State) (buffer : Nat → Nat) (n : Nat) (env : ArbEnv)
    (hn : n ≠ 0) (hb : s.busIdle = false) :
    (write s buffer n false env).2 = 2 ∧
    (write s buffer n false env).1.serialTxLength = n ∧
    (write s buffer n false env).1.serialTxBufferPos = 0 ∧
    (write s buffer n false env).1.serialTxBuffer
      = txStage s.calculateTxChecksum buffer n s.serialTxBuffer ∧
    (write s buffer n false env).1.udrie = s.udrie ∧
    (write s buffer n false env).1.busIdle = s.busIdle := by
  unfold write
  rw [if_neg hn, if_pos ⟨hb, rfl⟩]
  exact ⟨rfl, rfl, rfl, rfl, rfl, rfl⟩

/-- Claim C3 witness: the amended theorem applied to the clean busy state
and the concrete two-byte frame. -/
theorem C3_write_timeout_witness :
    (write busyState twoByteFrame 2 false quietEnv).2 = 2 ∧
    (write busyState twoByteFrame 2 false quietEnv).1.serialTxLength = 2 ∧
    (write busyState twoByteFrame 2 false quietEnv).1.serialTxBufferPos = 0 ∧
    (write busyState twoByteFrame 2 false quietEnv).1.serialTxBuffer
      = txStage busyState.calculateTxChecksum twoByteFrame 2 busyState.serialTxBuffer ∧
    (write busyState twoByteFrame 2 false quietEnv).1.udrie = busyState.udrie ∧
    (write busyState twoByteFrame 2 false quietEnv).1.busIdle = busyState.busIdle :=
  C3_write_timeout busyState twoByteFrame 2 quietEnv (by decide) (by decide)

/-- Claim C8: `write` with length 0 returns status 1 (EmptyBuffer)
immediately and the state is completely unchanged — in particular no byte
of the transmit staging buffer is mutated, the transmit length is
unchanged, and the bus-idle wait (which in the model consumes the
`busWentIdle` observation) is never reached. -/
theorem C8_write_empty (s : State) (buffer : Nat → Nat) (w : Bool) (env : ArbEnv) :
    write s buffer 0 w env = (s, 1) :=
  rfl

/-- Claim C9: in hardware-assisted mode (`interruptsAvailable = true`),
`write` only ever returns status 0 (Ok), 1 (EmptyBuffer) or 2 (Timeout):
after a successful idle wait it enables the transmit-data-ready interrupt
and returns 0, so status 3 (Collision) is unreachable. -/
theorem C9_hw_write_status (s : State) (buffer : Nat → Nat) (n : Nat) (w : Bool)
    (env : ArbEnv) (h : s.interruptsAvailable = true) :
    (write s buffer n w env).2 = 0 ∨
    (write s buffer n w env).2 = 1 ∨
    (write s buffer n w env).2 = 2 := by
  by_cases hn : n = 0
  · right; left
    rw [write, if_pos hn]
  · by_cases hb : s.busIdle = false ∧ w = false
    · right; right
      rw [write, if_neg hn, if_pos hb]
    · left
      rw [write, if_neg hn, if_neg hb, if_pos h]

/-- Claim C9 witness: a hardware-assisted write of a two-byte frame with
the bus idle returns one of the three non-collision statuses. -/
theorem C9_hw_write_status_witness :
    (write { busyState with interruptsAvailable := true, busIdle := true }
        twoByteFrame 2 false quietEnv).2 = 0 ∨
    (write { busyState with interruptsAvailable := true, busIdle := true }
        twoByteFrame 2 false quietEnv).2 = 1 ∨
    (write { busyState with interruptsAvailable := true, busIdle := true }
        twoByteFrame 2 false quietEnv).2 = 2 :=
  C9_hw_write_status { busyState with interruptsAvailable := true, busIdle := true }
    twoByteFrame 2 false quietEnv (by decide)

/-- Claim C10: an idle event arriving with an empty receive staging buffer
leaves the message state alone: `processMessage` is the identity there,
and the timer-expiry idle handler changes neither the message bytes nor
the message length nor the availability flag. -/
theorem C10_idle_empty_rx (s : State) (h : s.serialRxBufferPos = 0) :
    processMessage s = s ∧
    (handle_TIMER3_COMPA_vect s).message = s.message ∧
    (handle_TIMER3_COMPA_vect s).messageLength = s.messageLength ∧
    (handle_TIMER3_COMPA_vect s).lastMessageRead = s.lastMessageRead := by
  have hpm : ∀ t : State, t.serialRxBufferPos = 0 → processMessage t = t := by
    intro t ht
    unfold processMessage
    rw [if_neg (by omega)]
  have hh : handle_TIMER3_COMPA_vect s = { s with busIdle := true } := by
    unfold handle_TIMER3_COMPA_vect
    exact hpm _ h
  rw [hh]
  exact ⟨hpm s h, rfl, rfl, rfl⟩

/-- Claim C10 witness: the theorem applied to the clean busy state, whose
receive staging buffer is empty. -/
theorem C10_idle_empty_rx_witness :
    processMessage busyState = busyState ∧
    (handle_TIMER3_COMPA_vect busyState).message = busyState.message ∧
    (handle_TIMER3_COMPA_vect busyState).messageLength = busyState.messageLength ∧
    (handle_TIMER3_COMPA_vect busyState).lastMessageRead = busyState.lastMessageRead :=
  C10_idle_empty_rx busyState (by decide)

/-- In every branch of `write` past the empty-buffer check, the transmit
buffer contents are exactly the staged (copied and optionally
checksum-stamped) caller bytes: neither the timeout path, nor the
hardware path, nor either arbitration outcome rewrites them. -/
theorem write_txBuffer_staged (s : State) (buffer : Nat → Nat) (n : Nat) (w : Bool)
    (env : ArbEnv) (hn : n ≠ 0) :
    (write s buffer n w env).1.serialTxBuffer
      = txStage s.calculateTxChecksum buffer n s.serialTxBuffer := by
  unfold write
  rw [if_neg hn]
  by_cases h1 : s.busIdle = false ∧ w = false
  · rw [if_pos h1]
  · rw [if_neg h1]
    by_cases h2 : s.interruptsAvailable = true
    · rw [if_pos h2]
    · rw [if_neg h2]
      by_cases h3 :
          (arbitrate env (txStage s.calculateTxChecksum buffer n s.serialTxBuffer 0)).1 = false
          ∧ (arbitrate env (txStage s.calculateTxChecksum buffer n s.serialTxBuffer 0)).2
              = txStage s.calculateTxChecksum buffer n s.serialTxBuffer 0
      · rw [if_pos h3]
      · rw [if_neg h3]

/-- RX line behaviour during arbitration when the bus carries exactly the
byte `b`: idle-high before the start bit, low at the start-bit sample, the
bits of `b` during the data bits, high at the stop-bit sample. -/
def echoEnv (b : Nat) : ArbEnv :=
  { rxIdle := true, rxStart := false, rxData := fun i => b.testBit i, rxStop := true }

/-- A software-mode state observing the bus idle. -/
def idleSwState : State :=
  { busyState with busIdle := true }

/-- Claim C4: in software-arbitration mode, when the bit-banged first byte
ends with the error flag set or with a sampled byte differing from the
intended first byte, `write` resets the transmit position and length to 0,
stores the sampled byte at index 0 of the receive staging buffer with the
cursor set to 1, and returns status 3 (Collision). -/
theorem C4_write_collision (s : State) (buffer : Nat → Nat) (n : Nat) (w : Bool)
    (env : ArbEnv)
    (hn : n ≠ 0)
    (hm : s.interruptsAvailable = false)
    (hidle : s.busIdle = true ∨ w = true)
    (harb : (arbitrate env (buffer 0)).1 = true ∨ (arbitrate env (buffer 0)).2 ≠ buffer 0) :
    (write s buffer n w env).2 = 3 ∧
    (write s buffer n w env).1.serialTxBufferPos = 0 ∧
    (write s buffer n w env).1.serialTxLength = 0 ∧
    (write s buffer n w env).1.serialRxBuffer 0 = (arbitrate env (buffer 0)).2 ∧
    (write s buffer n w env).1.serialRxBufferPos = 1 := by
  have hid2 : ¬ (s.busIdle = false ∧ w = false) := by
    rcases hidle with h | h <;> simp [h]
  have hm2 : ¬ (s.interruptsAvailable = true) := by simp [hm]
  have hzero : txStage s.calculateTxChecksum buffer n s.serialTxBuffer 0 = buffer 0 :=
    txStage_zero _ _ _ _ (Nat.pos_of_ne_zero hn)
  unfold write
  rw [if_neg hn, if_neg hid2, if_neg hm2]
  by_cases h3 :
      (arbitrate env (txStage s.calculateTxChecksum buffer n s.serialTxBuffer 0)).1 = false
      ∧ (arbitrate env (txStage s.calculateTxChecksum buffer n s.serialTxBuffer 0)).2
          = txStage s.calculateTxChecksum buffer n s.serialTxBuffer 0
  · rw [hzero] at h3
    rcases harb with ha | ha
    · rw [h3.1] at ha
      exact absurd ha (by decide)
    · exact absurd h3.2 ha
  · rw [if_neg h3]
    refine ⟨rfl, rfl, rfl, ?_, rfl⟩
    show Function.update s.serialRxBuffer 0
        (arbitrate env (txStage s.calculateTxChecksum buffer n s.serialTxBuffer 0)).2 0
      = (arbitrate env (buffer 0)).2
    rw [hzero, Function.update_same]

/-- A two-byte frame whose first byte 32 loses arbitration against a bus
carrying 16. -/
def losingFrame : Nat → Nat :=
  fun j => if j = 0 then 32 else if j = 1 then 64 else 0

/-- Claim C4 witness: the theorem applied to an attempt to send first byte
32 while the bus carries byte 16. -/
theorem C4_write_collision_witness :
    (write idleSwState losingFrame 2 false (echoEnv 16)).2 = 3 ∧
    (write idleSwState losingFrame 2 false (echoEnv 16)).1.serialTxBufferPos = 0 ∧
    (write idleSwState losingFrame 2 false (echoEnv 16)).1.serialTxLength = 0 ∧
    (write idleSwState losingFrame 2 false (echoEnv 16)).1.serialRxBuffer 0
      = (arbitrate (echoEnv 16) (losingFrame 0)).2 ∧
    (write idleSwState losingFrame 2 false (echoEnv 16)).1.serialRxBufferPos = 1 :=
  C4_write_collision idleSwState losingFrame 2 false (echoEnv 16)
    (by decide) (by decide) (Or.inl (by decide)) (Or.inr (by decide))

/-- A one-byte frame holding the ID byte 16. -/
def oneByteFrame : Nat → Nat :=
  fun j => if j = 0 then 16 else 0

/-- Claim C5: in software-arbitration mode, when the bit-banged first byte
ends with no error and a sampled byte equal to the intended first byte,
`write` sets the transmit position to 1 (so the interrupt-driven
transmitter continues from index 1), enables the transmit-data-ready
interrupt, and returns status 0 (Ok). -/
theorem C5_write_arbitration_won (s : State) (buffer : Nat → Nat) (n : Nat) (w : Bool)
    (env : ArbEnv)
    (hn : n ≠ 0)
    (hm : s.interruptsAvailable = false)
    (hidle : s.busIdle = true ∨ w = true)
    (harb : (arbitrate env (buffer 0)).1 = false ∧ (arbitrate env (buffer 0)).2 = buffer 0) :
    (write s buffer n w env).2 = 0 ∧
    (write s buffer n w env).1.serialTxBufferPos = 1 ∧
    (write s buffer n w env).1.udrie = true ∧
    (write s buffer n w env).1.serialRxBuffer 0 = buffer 0 ∧
    (write s buffer n w env).1.serialRxBufferPos = 1 := by
  have hid2 : ¬ (s.busIdle = false ∧ w = false) := by
    rcases hidle with h | h <;> simp [h]
  have hm2 : ¬ (s.interruptsAvailable = true) := by simp [hm]
  have hzero : txStage s.calculateTxChecksum buffer n s.serialTxBuffer 0 = buffer 0 :=
    txStage_zero _ _ _ _ (Nat.pos_of_ne_zero hn)
  unfold write
  rw [if_neg hn, if_neg hid2, if_neg hm2]
  by_cases h3 :
      (arbitrate env (txStage s.calculateTxChecksum buffer n s.serialTxBuffer 0)).1 = false
      ∧ (arbitrate env (txStage s.calculateTxChecksum buffer n s.serialTxBuffer 0)).2
          = txStage s.calculateTxChecksum buffer n s.serialTxBuffer 0
  · rw [if_pos h3]
    refine ⟨rfl, rfl, rfl, ?_, rfl⟩
    show Function.update s.serialRxBuffer 0
        (arbitrate env (txStage s.calculateTxChecksum buffer n s.serialTxBuffer 0)).2 0
      = buffer 0
    rw [Function.update_same, hzero, harb.2]
  · refine absurd ?_ h3
    rw [hzero]
    exact harb

/-- Claim C5 witness: the theorem applied to a one-byte frame with ID 16
echoed back exactly by the bus. -/
theorem C5_write_arbitration_won_witness :
    (write idleSwState oneByteFrame 1 false (echoEnv 16)).2 = 0 ∧
    (write idleSwState oneByteFrame 1 false (echoEnv 16)).1.serialTxBufferPos = 1 ∧
    (write idleSwState oneByteFrame 1 false (echoEnv 16)).1.udrie = true ∧
    (write idleSwState oneByteFrame 1 false (echoEnv 16)).1.serialRxBuffer 0
      = oneByteFrame 0 ∧
    (write idleSwState oneByteFrame 1 false (echoEnv 16)).1.serialRxBufferPos = 1 :=
  C5_write_arbitration_won idleSwState oneByteFrame 1 false (echoEnv 16)
    (by decide) (by decide) (Or.inl (by decide)) (by decide)

/-- Claim C6: for every input of length at least 2 with transmit-checksum
generation enabled, `write` overwrites byte `length - 1` of the transmit
staging buffer with the mod-256 sum of bytes `0 .. length - 2` of the
caller buffer (in every branch of `write`); and, round-trip, the message
assembler with verify-checksum enabled accepts a received frame of length
at least 2 (assembling its full length) exactly when the frame's last byte
equals the mod-256 sum of all preceding bytes. -/
theorem C6_checksum_roundtrip :
    (∀ (s : State) (buffer : Nat → Nat) (n : Nat) (w : Bool) (env : ArbEnv),
        s.calculateTxChecksum = true → 2 ≤ n →
        (write s buffer n w env).1.serialTxBuffer (n - 1) = checksumOf buffer (n - 1)) ∧
    (∀ s : State, s.verifyRxChecksum = true → 2 ≤ s.serialRxBufferPos →
        ((processMessage s).messageLength = s.serialRxBufferPos ↔
          s.serialRxBuffer (s.serialRxBufferPos - 1)
            = checksumOf s.serialRxBuffer (s.serialRxBufferPos - 1))) := by
  constructor
  · intro s buffer n w env hc hn
    rw [write_txBuffer_staged s buffer n w env (by omega), hc]
    exact txStage_last buffer n s.serialTxBuffer (by omega)
  · intro s hv hp
    unfold processMessage
    rw [if_pos (by omega), if_pos ⟨hv, by omega⟩]
    by_cases h : checksumOf s.serialRxBuffer (s.serialRxBufferPos - 1)
        = s.serialRxBuffer (s.serialRxBufferPos - 1)
    · rw [if_pos h]
      exact ⟨fun _ => h.symm, fun _ => rfl⟩
    · rw [if_neg h]
      refine ⟨fun h0 => ?_, fun he => absurd he.symm h⟩
      have h1 : (0 : Nat) = s.serialRxBufferPos := h0
      omega

/-- A hardware-assisted idle state with transmit-checksum generation on. -/
def txChecksumState : State :=
  { busyState with calculateTxChecksum := true, interruptsAvailable := true, busIdle := true }

/-- A receive state with verification on holding the valid frame
`[16, 32, 48]` (48 = (16 + 32) % 256). -/
def goodRxState : State :=
  { busyState with
    verifyRxChecksum := true
    serialRxBuffer := fun j =>
      if j = 0 then 16 else if j = 1 then 32 else if j = 2 then 48 else 0
    serialRxBufferPos := 3 }

/-- Claim C6 witness: stamping a two-byte frame and accepting the valid
three-byte frame `[16, 32, 48]`. -/
theorem C6_checksum_roundtrip_witness :
    (write txChecksumState twoByteFrame 2 false quietEnv).1.serialTxBuffer 1
      = checksumOf twoByteFrame 1 ∧
    ((processMessage goodRxState).messageLength = goodRxState.serialRxBufferPos ↔
      goodRxState.serialRxBuffer (goodRxState.serialRxBufferPos - 1)
        = checksumOf goodRxState.serialRxBuffer (goodRxState.serialRxBufferPos - 1)) :=
  ⟨C6_checksum_roundtrip.1 txChecksumState twoByteFrame 2 false quietEnv
      (by decide) (by decide),
   C6_checksum_roundtrip.2 goodRxState (by decide) (by decide)⟩

/-! ### Receive-event sequences (claim C7) -/

theorem rxEvents_cons (s : State) (e : Nat × Nat) (es : List (Nat × Nat)) :
    rxEvents s (e :: es) = rxEvents (handle_USART1_RX_vect s e.1 e.2) es :=
  rfl

theorem rxEvents_append (s : State) (es : List (Nat × Nat)) (e : Nat × Nat) :
    rxEvents s (es ++ [e]) = handle_USART1_RX_vect (rxEvents s es) e.1 e.2 := by
  unfold rxEvents
  rw [List.foldl_append]
  rfl

theorem handle_rx_lt (s : State) (usr data : Nat) (h : s.serialRxBufferPos < 16) :
    handle_USART1_RX_vect s usr data =
      { s with
        busIdle := false
        serialRxBuffer := Function.update s.serialRxBuffer s.serialRxBufferPos data
        serialRxBufferPos := s.serialRxBufferPos + 1
        lastSerialError := usr &&& (2 ^ FE1 ||| 2 ^ DOR1) } := by
  rw [handle_USART1_RX_vect, if_pos h]

theorem handle_rx_ge (s : State) (usr data : Nat) (h : ¬ s.serialRxBufferPos < 16) :
    handle_USART1_RX_vect s usr data =
      { s with
        busIdle := false
        lastSerialError := (usr &&& (2 ^ FE1 ||| 2 ^ DOR1)) ||| UART_BUFFER_OVERFLOW } := by
  rw [handle_USART1_RX_vect, if_neg h]

theorem handle_rx_pos_lt (s : State) (usr data : Nat) (h : s.serialRxBufferPos < 16) :
    (handle_USART1_RX_vect s usr data).serialRxBufferPos = s.serialRxBufferPos + 1 := by
  rw [handle_rx_lt s usr data h]

theorem handle_rx_pos (s : State) (usr data : Nat) :
    (handle_USART1_RX_vect s usr data).serialRxBufferPos
      = if s.serialRxBufferPos < 16 then s.serialRxBufferPos + 1 else s.serialRxBufferPos := by
  by_cases h : s.serialRxBufferPos < 16
  · rw [handle_rx_lt s usr data h, if_pos h]
  · rw [handle_rx_ge s usr data h, if_neg h]

theorem handle_rx_buffer_at (s : State) (usr data : Nat) (h : s.serialRxBufferPos < 16) :
    (handle_USART1_RX_vect s usr data).serialRxBuffer s.serialRxBufferPos = data := by
  rw [handle_rx_lt s usr data h]
  exact Function.update_same _ _ _

theorem handle_rx_buffer_ne (s : State) (usr data : Nat) (i : Nat)
    (hne : i ≠ s.serialRxBufferPos) :
    (handle_USART1_RX_vect s usr data).serialRxBuffer i = s.serialRxBuffer i := by
  by_cases h : s.serialRxBufferPos < 16
  · rw [handle_rx_lt s usr data h]
    exact Function.update_noteq hne _ _
  · rw [handle_rx_ge s usr data h]

theorem handle_rx_verify (s : State) (usr data : Nat) :
    (handle_USART1_RX_vect s usr data).verifyRxChecksum = s.verifyRxChecksum := by
  by_cases h : s.serialRxBufferPos < 16
  · rw [handle_rx_lt s usr data h]
  · rw [handle_rx_ge s usr data h]

theorem rxEvents_verify (es : List (Nat × Nat)) (s : State) :
    (rxEvents s es).verifyRxChecksum = s.verifyRxChecksum := by
  induction es generalizing s with
  | nil => rfl
  | cons e es ih => rw [rxEvents_cons, ih, handle_rx_verify]

/-- The cursor after a run of byte-received events: it advances once per
event while below capacity 16 and then freezes there. -/
theorem rxEvents_pos (es : List (Nat × Nat)) (s : State) (h : s.serialRxBufferPos ≤ 16) :
    (rxEvents s es).serialRxBufferPos = min (s.serialRxBufferPos + es.length) 16 := by
  induction es generalizing s with
  | nil =>
    show s.serialRxBufferPos = min (s.serialRxBufferPos + ([] : List (Nat × Nat)).length) 16
    simp
    omega
  | cons e es ih =>
    rw [rxEvents_cons, ih _ (by rw [handle_rx_pos]; split_ifs <;> omega), handle_rx_pos,
      List.length_cons]
    split_ifs <;> omega

/-- Bytes already in the staging buffer are never overwritten by later
byte-received events. -/
theorem rxEvents_buffer_prefix (es : List (Nat × Nat)) (s : State) (i : Nat)
    (hi : i < s.serialRxBufferPos) :
    (rxEvents s es).serialRxBuffer i = s.serialRxBuffer i := by
  induction es generalizing s with
  | nil => rfl
  | cons e es ih =>
    rw [rxEvents_cons,
      ih _ (by rw [handle_rx_pos]; split_ifs <;> omega),
      handle_rx_buffer_ne s e.1 e.2 i (by omega)]

/-- The byte stored by the `j`-th event of a run that starts below
capacity lands at the cursor position it found. -/
theorem rxEvents_buffer_new (es : List (Nat × Nat)) (s : State) (j : Nat)
    (h16 : s.serialRxBufferPos + j < 16) (hj : j < es.length) :
    (rxEvents s es).serialRxBuffer (s.serialRxBufferPos + j) = (es.getD j (0, 0)).2 := by
  induction es generalizing s j with
  | nil => exact absurd hj (Nat.not_lt_zero j)
  | cons e es ih =>
    have hlt : s.serialRxBufferPos < 16 := by omega
    rw [rxEvents_cons]
    cases j with
    | zero =>
      rw [Nat.add_zero,
        rxEvents_buffer_prefix es (handle_USART1_RX_vect s e.1 e.2) s.serialRxBufferPos
          (by rw [handle_rx_pos_lt s e.1 e.2 hlt]; omega),
        handle_rx_buffer_at s e.1 e.2 hlt]
      rfl
    | succ k =>
      have hpos := handle_rx_pos_lt s e.1 e.2 hlt
      have happ := ih (handle_USART1_RX_vect s e.1 e.2) k
        (by rw [hpos]; omega) (by simpa using hj)
      rw [hpos] at happ
      have hidx : s.serialRxBufferPos + (k + 1) = s.serialRxBufferPos + 1 + k := by omega
      rw [hidx, happ]
      rfl

/-- Once more than 16 bytes arrived without an idle event, the last byte
was dropped and its interrupt recorded the buffer-overflow condition in
the last-serial-error field. -/
theorem rxEvents_overflow (es : List (Nat × Nat)) (s : State)
    (h0 : s.serialRxBufferPos = 0) (hlen : 16 < es.length) :
    Nat.testBit (rxEvents s es).lastSerialError 6 = true := by
  have hne : es ≠ [] := by
    intro h
    rw [h] at hlen
    exact absurd hlen (by decide)
  obtain ⟨l, e, rfl⟩ : ∃ l e, es = l ++ [e] :=
    ⟨es.dropLast, es.getLast hne, (List.dropLast_append_getLast hne).symm⟩
  rw [rxEvents_append]
  have hl : 16 ≤ l.length := by
    have := hlen
    rw [List.length_append, List.length_singleton] at this
    omega
  have hpos : (rxEvents s l).serialRxBufferPos = 16 := by
    rw [rxEvents_pos l s (by omega), h0]
    omega
  rw [handle_rx_ge _ e.1 e.2 (by rw [hpos]; omega)]
  show Nat.testBit ((e.1 &&& (2 ^ FE1 ||| 2 ^ DOR1)) ||| UART_BUFFER_OVERFLOW) 6 = true
  rw [Nat.testBit_lor]
  have hbit : Nat.testBit UART_BUFFER_OVERFLOW 6 = true := by decide
  rw [hbit, Bool.or_true]

/-- With checksum verification disabled, the message assembler copies the
whole staging buffer into the message slot and records its length. -/
theorem processMessage_no_verify (t : State) (hv : t.verifyRxChecksum = false)
    (hp : 0 < t.serialRxBufferPos) :
    (processMessage t).messageLength = t.serialRxBufferPos ∧
    ∀ i, i < t.serialRxBufferPos → (processMessage t).message i = t.serialRxBuffer i := by
  unfold processMessage
  rw [if_pos hp, if_neg (by simp [hv])]
  refine ⟨rfl, ?_⟩
  intro i hi
  show copyBytes t.serialRxBufferPos t.serialRxBuffer t.message i = t.serialRxBuffer i
  rw [copyBytes_apply, if_pos hi]

/-- Claim C7: across any run of at least 16 byte-received events with no
intervening idle event, starting from an empty staging buffer, the cursor
ends frozen at capacity 16; the first 16 delivered bytes are retained in
order; if more than 16 bytes arrived, the buffer-overflow condition is
recorded in the last-serial-error field; and the next idle event (with
checksum verification disabled) assembles exactly those first 16 bytes as
a message of length 16. -/
theorem C7_rx_overflow (s : State) (es : List (Nat × Nat))
    (h0 : s.serialRxBufferPos = 0) (h16 : 16 ≤ es.length) :
    (rxEvents s es).serialRxBufferPos = 16 ∧
    (∀ i, i < 16 → (rxEvents s es).serialRxBuffer i = (es.getD i (0, 0)).2) ∧
    (16 < es.length → Nat.testBit (rxEvents s es).lastSerialError 6 = true) ∧
    (s.verifyRxChecksum = false →
      (handle_TIMER3_COMPA_vect (rxEvents s es)).messageLength = 16 ∧
      ∀ i, i < 16 →
        (handle_TIMER3_COMPA_vect (rxEvents s es)).message i = (es.getD i (0, 0)).2) := by
  have hpos : (rxEvents s es).serialRxBufferPos = 16 := by
    rw [rxEvents_pos es s (by omega), h0]
    omega
  have hbuf : ∀ i, i < 16 → (rxEvents s es).serialRxBuffer i = (es.getD i (0, 0)).2 := by
    intro i hi
    have h := rxEvents_buffer_new es s i (by omega) (by omega)
    rwa [h0, Nat.zero_add] at h
  refine ⟨hpos, hbuf, fun hgt => rxEvents_overflow es s h0 hgt, fun hv => ?_⟩
  have h1 := processMessage_no_verify { rxEvents s es with busIdle := true }
    (by show (rxEvents s es).verifyRxChecksum = false; rw [rxEvents_verify]; exact hv)
    (by show 0 < (rxEvents s es).serialRxBufferPos; omega)
  constructor
  · calc (handle_TIMER3_COMPA_vect (rxEvents s es)).messageLength
        = ({ rxEvents s es with busIdle := true } : State).serialRxBufferPos := h1.1
      _ = 16 := hpos
  · intro i hi
    have h2 := h1.2 i (by show i < (rxEvents s es).serialRxBufferPos; omega)
    calc (handle_TIMER3_COMPA_vect (rxEvents s es)).message i
        = ({ rxEvents s es with busIdle := true } : State).serialRxBuffer i := h2
      _ = (es.getD i (0, 0)).2 := hbuf i hi

/-- Claim C7 witness: 17 bytes delivered to an empty buffer leave the
cursor at 16 with the overflow condition recorded. -/
theorem C7_rx_overflow_witness :
    (rxEvents busyState (List.replicate 17 ((0 : Nat), (7 : Nat)))).serialRxBufferPos = 16 ∧
    Nat.testBit
      (rxEvents busyState (List.replicate 17 ((0 : Nat), (7 : Nat)))).lastSerialError 6
      = true :=
  ⟨(C7_rx_overflow busyState (List.replicate 17 (0, 7)) (by decide) (by decide)).1,
   (C7_rx_overflow busyState (List.replicate 17 (0, 7)) (by decide) (by decide)).2.2.1
    (by decide)⟩

end CCDLib
